import Mathlib

/-!
Verification of the tilemap auto-tiling and rendering subsystem of the
Mole-Man-2 repository.  The repository's `src/main.rs` wires a `tilemap`
module (tile grid, orientation masks, sprite configuration store, renderer,
config editor) into its event loop; the module's own source file is not
present in the sources, so its data model and operations are modelled here
from the system specification, faithful to its words, while the
right-mouse-click handler of `main.rs` is embedded directly from the source.
-/

set_option maxHeartbeats 1000000

/-- A tile of the grid: `Empty`, or `Filled` carrying the cell's orientation
mask, a bitmask over the 8 compass neighbor directions (the constructors
`Tile::Empty` and `Tile::Filled(o)` appear at the call sites in `main.rs`). -/
inductive Tile where
  | Empty : Tile
  | Filled : Nat → Tile
deriving DecidableEq

/-- Modelled from the spec: the fixed grid width (16 in the reference use,
matching the `0..16` loops and `grid_x < 16` checks in `main.rs`). -/
def gridWidth : Nat := 16

/-- Modelled from the spec: the fixed grid height (16 in the reference use). -/
def gridHeight : Nat := 16

/-- The tile grid, given by the contents of its cells; only coordinates with
`x < gridWidth` and `y < gridHeight` are ever read or written by the
operations below, matching the fixed 16×16 array of the spec. -/
abbrev TileGrid := Nat → Nat → Tile

/-- Whether a tile is occupied. -/
def Tile.isFilled : Tile → Bool
  | .Empty => false
  | .Filled _ => true

/-- Modelled from the spec: `toggle(x, y)` flips cell `(x, y)` between
`Empty` and `Filled(mask = 0)`, and fails silently (no-op) when `x` or `y`
is out of the fixed bounds (the `tilemap` module implementing it is absent
from the sources; only its caller in `main.rs` is present). -/
def toggle (g : TileGrid) (x y : Nat) : TileGrid :=
  if x < gridWidth ∧ y < gridHeight then
    fun a b =>
      if a = x ∧ b = y then
        match g x y with
        | Tile.Empty => Tile.Filled 0
        | Tile.Filled _ => Tile.Empty
      else g a b
  else g

/-- Modelled from the spec: `tile(x, y)` returns the current `Tile` of an
in-bounds cell; out-of-range access is a fatal error (panic), modelled as
`none`. -/
def tile (g : TileGrid) (x y : Nat) : Option Tile :=
  if x < gridWidth ∧ y < gridHeight then some (g x y) else none

/-- The 8 compass neighbor directions of an orientation mask (the variants
`N`, `S`, `E`, `W`, `NE`, `NW`, `SE`, `SW` appear at the call sites in
`main.rs`). -/
inductive Dir where
  | N | S | E | W | NE | NW | SE | SW
deriving DecidableEq

/-- Modelled from the spec: the bit index of each direction in an
orientation mask (the spec fixes no particular numbering; this one is
stable). -/
def Dir.bit : Dir → Nat
  | .N => 0 | .S => 1 | .E => 2 | .W => 3
  | .NE => 4 | .NW => 5 | .SE => 6 | .SW => 7

/-- Modelled from the spec: the horizontal grid offset of each neighbor
direction. -/
def Dir.dx : Dir → Int
  | .N => 0 | .S => 0 | .E => 1 | .W => -1
  | .NE => 1 | .NW => -1 | .SE => 1 | .SW => -1

/-- Modelled from the spec: the vertical grid offset of each neighbor
direction. -/
def Dir.dy : Dir → Int
  | .N => 1 | .S => -1 | .E => 0 | .W => 0
  | .NE => 1 | .NW => 1 | .SE => -1 | .SW => -1

/-- The 8 neighbor directions, in the order the adjacency resolver tests
them. -/
def Dir.all : List Dir := [.N, .S, .E, .W, .NE, .NW, .SE, .SW]

/-- Modelled from the spec: whether the neighbor of `(x, y)` in direction
`d` lies inside the fixed grid bounds (the edge of the world is treated as
empty, not wrapped). -/
def neighborInBounds (x y : Nat) (d : Dir) : Bool :=
  decide (0 ≤ (x : Int) + d.dx) && decide ((x : Int) + d.dx < (gridWidth : Int)) &&
  decide (0 ≤ (y : Int) + d.dy) && decide ((y : Int) + d.dy < (gridHeight : Int))

/-- Modelled from the spec: whether the neighbor of `(x, y)` in direction
`d` exists inside grid bounds and holds a `Filled` tile. -/
def neighborFilled (g : TileGrid) (x y : Nat) (d : Dir) : Bool :=
  neighborInBounds x y d && (g ((x : Int) + d.dx).toNat ((y : Int) + d.dy).toNat).isFilled

/-- Modelled from the spec (Adjacency Resolver): test the 8 neighbor offsets
of a cell; for each neighbor that exists inside grid bounds and is `Filled`,
set the corresponding direction bit of the mask. -/
def computeMask (g : TileGrid) (x y : Nat) : Nat :=
  Dir.all.foldl (fun m d => if neighborFilled g x y d then m ||| (1 <<< d.bit) else m) 0

/-- Modelled from the spec: the per-tick rebuild recomputes the orientation
mask of every filled cell unconditionally from the current occupancy; empty
cells stay empty, and cells outside the fixed bounds are not touched. -/
def rebuildMasks (g : TileGrid) : TileGrid := fun x y =>
  if x < gridWidth ∧ y < gridHeight then
    match g x y with
    | Tile.Empty => Tile.Empty
    | Tile.Filled _ => Tile.Filled (computeMask g x y)
  else g x y

/-- A coordinate into the sprite sheet. -/
structure SpriteCoord where
  tile_x : Nat
  tile_y : Nat
deriving DecidableEq

/-- Modelled from the spec: the sprite configuration store — a mapping from
orientation mask to an ordered list of candidate sprite coordinates, bound
to a sidecar path and to the tile pixel dimensions. -/
structure TilemapSpriteConfig where
  path : String
  tile_width : Nat
  tile_height : Nat
  mapping : List (Nat × List SpriteCoord)
deriving DecidableEq

/-- The ordered candidate list configured for a mask (empty when the mask
has no entry in the store). -/
def TilemapSpriteConfig.candidates (c : TilemapSpriteConfig) (mask : Nat) : List SpriteCoord :=
  match c.mapping.find? (fun p => p.1 == mask) with
  | some p => p.2
  | none => []

/-- Modelled from the spec: `lookup(mask)` returns a coordinate chosen from
the candidate list for that exact mask, the deterministic selection policy
being index 0; absence when no candidate is configured. -/
def TilemapSpriteConfig.lookup (c : TilemapSpriteConfig) (mask : Nat) : Option SpriteCoord :=
  (c.candidates mask).head?

/-- Modelled from the spec: the content of the sidecar configuration file —
tile pixel width, tile pixel height, and the mask-keyed mapping to ordered
coordinate lists. -/
structure ConfigFile where
  tile_width : Nat
  tile_height : Nat
  mapping : List (Nat × List SpriteCoord)
deriving DecidableEq

/-- Modelled from the spec: the state the load operation can find the
sidecar file in — missing, present but failing to parse, or holding a valid
serialized record. -/
inductive FileState where
  | missing : FileState
  | corrupt : FileState
  | valid : ConfigFile → FileState
deriving DecidableEq

/-- Modelled from the spec: `new_or_load(path, tile_w, tile_h)` attempts to
deserialize a persisted mapping; on missing file or parse failure it returns
an empty store bound to the given path and dimensions rather than failing
the caller. -/
def TilemapSpriteConfig.new_or_load (path : String) (tile_width tile_height : Nat)
    (fs : FileState) : TilemapSpriteConfig :=
  match fs with
  | FileState.valid f => ⟨path, f.tile_width, f.tile_height, f.mapping⟩
  | _ => ⟨path, tile_width, tile_height, []⟩

/-- Modelled from the spec: `persist()` serializes the full mapping, with
the tile pixel dimensions, into the sidecar file record. -/
def TilemapSpriteConfig.persistFile (c : TilemapSpriteConfig) : ConfigFile :=
  ⟨c.tile_width, c.tile_height, c.mapping⟩

/-- Modelled from the spec: a persist attempt against a file system that may
fail — on success the sidecar file is overwritten with the serialized store,
on failure the error is reported to the caller; either way the in-memory
store is returned alongside. -/
def TilemapSpriteConfig.persist (c : TilemapSpriteConfig) (disk : FileState) (fsOk : Bool) :
    Except String Unit × TilemapSpriteConfig × FileState :=
  if fsOk then (Except.ok (), c, FileState.valid c.persistFile)
  else (Except.error "io error", c, disk)

/-- A GPU instance record: the world offset of the cell and the sprite-sheet
coordinate resolved for its mask. -/
structure TileInstance where
  offset_x : Nat
  offset_y : Nat
  coord : SpriteCoord
deriving DecidableEq

/-- Modelled from the spec: resolution of one cell during the rebuild pass —
an empty cell emits nothing, a filled cell emits an instance exactly when
its freshly recomputed mask has a configured candidate in the store. -/
def resolveCell (g : TileGrid) (c : TilemapSpriteConfig) (y x : Nat) : Option TileInstance :=
  match g x y with
  | Tile.Empty => none
  | Tile.Filled _ =>
      match c.lookup (computeMask g x y) with
      | some coord => some ⟨x, y, coord⟩
      | none => none

/-- Modelled from the spec: the rebuild pass walks the grid row-major and
emits one instance per filled-and-resolved cell; a filled cell whose mask
has no configured candidate is skipped. -/
def rebuildInstances (g : TileGrid) (c : TilemapSpriteConfig) : List TileInstance :=
  (List.range gridHeight).flatMap fun y =>
    (List.range gridWidth).filterMap (resolveCell g c y)

/-- Modelled from the spec: `instance_count()` is the number of entries in
the most recently built instance buffer. -/
def instance_count (g : TileGrid) (c : TilemapSpriteConfig) : Nat :=
  (rebuildInstances g c).length

/-- Stated from the spec's words, for comparison with `instance_count`: the
number of filled cells whose orientation mask has at least one configured
candidate in the store. -/
def specConfiguredFilledCount (g : TileGrid) (c : TilemapSpriteConfig) : Nat :=
  ((List.range gridHeight).flatMap fun y =>
    (List.range gridWidth).filter fun x =>
      (g x y).isFilled && (c.lookup (computeMask g x y)).isSome).length

/-- Embedded from `src/main.rs` (right-mouse-button pressed handler): from
the world position of the click the handler checks `pos.x > 0.0` and
`pos.y > 0.0`, floors each coordinate and casts it to `usize`, checks
`grid_x < 16` and `grid_y < 16`, and only then calls
`tilemap.toggle(grid_x, grid_y)`.  This function returns the arguments of
that call, or `none` when no call is made (the world coordinates, floats in
the source, are modelled as rationals). -/
def rightClickToggleArgs (posx posy : ℚ) : Option (Nat × Nat) :=
  if posx > 0 ∧ posy > 0 then
    let grid_x : Nat := posx.floor.toNat
    let grid_y : Nat := posy.floor.toNat
    if grid_x < 16 ∧ grid_y < 16 then some (grid_x, grid_y) else none
  else none

/-- The all-empty grid, the state a fresh `TilemapRenderer` allocates. -/
def emptyGrid : TileGrid := fun _ _ => Tile.Empty

/-- A concrete store used to instantiate theorems with hypotheses. -/
def sampleConfig : TilemapSpriteConfig :=
  ⟨"assets/tileset.png.tileset.json", 16, 8, [(5, [⟨1, 2⟩, ⟨3, 4⟩]), (0, [⟨0, 0⟩])]⟩

/-- A concrete grid with two horizontally adjacent filled cells. -/
def pairGrid : TileGrid := fun x y =>
  if (x = 0 ∧ y = 0) ∨ (x = 1 ∧ y = 0) then Tile.Filled 0 else Tile.Empty

/-- Helper: a `filterMap` has the same length as the `filter` by the
predicate deciding whether it produces a value. -/
theorem length_filterMap_eq_length_filter {α β : Type} (f : α → Option β) (p : α → Bool)
    (hfp : ∀ a, (f a).isSome = p a) :
    ∀ l : List α, (l.filterMap f).length = (l.filter p).length := by
  intro l
  induction l with
  | nil => rfl
  | cons a t ih =>
    rcases hfa : f a with _ | b
    · have hpa : p a = false := by rw [← hfp a, hfa]; rfl
      simp [List.filterMap_cons, List.filter_cons, hfa, hpa, ih]
    · have hpa : p a = true := by rw [← hfp a, hfa]; rfl
      simp [List.filterMap_cons, List.filter_cons, hfa, hpa, ih]

/-- Helper: two `flatMap`s over the same rows have the same length when the
rows map to lists of the same length. -/
theorem length_flatMap_congr {α β γ : Type} (rows : List α) (f : α → List β) (f2 : α → List γ)
    (h : ∀ a, (f a).length = (f2 a).length) :
    (rows.flatMap f).length = (rows.flatMap f2).length := by
  induction rows with
  | nil => rfl
  | cons a t ih => simp [List.flatMap_cons, List.length_append, h a, ih]

/-- Helper: a cell resolves to an instance exactly when it is filled and its
mask has a configured candidate. -/
theorem resolveCell_isSome (g : TileGrid) (c : TilemapSpriteConfig) (y x : Nat) :
    (resolveCell g c y x).isSome =
      ((g x y).isFilled && (c.lookup (computeMask g x y)).isSome) := by
  unfold resolveCell
  rcases hg : g x y with _ | m
  · simp [Tile.isFilled]
  · rcases hc : c.lookup (computeMask g x y) with _ | co <;> simp [Tile.isFilled, hc]

/-- Helper: an emitted instance records the coordinates of a filled cell
whose mask has a configured candidate. -/
theorem resolveCell_eq_some (g : TileGrid) (c : TilemapSpriteConfig) (y x : Nat)
    (inst : TileInstance) (h : resolveCell g c y x = some inst) :
    inst.offset_x = x ∧ inst.offset_y = y ∧ (g x y).isFilled = true ∧
    (c.lookup (computeMask g x y)).isSome = true := by
  unfold resolveCell at h
  rcases hg : g x y with _ | m <;> rw [hg] at h
  · simp at h
  · rcases hc : c.lookup (computeMask g x y) with _ | co <;> rw [hc] at h
    · simp at h
    · injection h with h
      subst h
      exact ⟨rfl, rfl, rfl, rfl⟩

/-- C2: for every grid state and every in-bounds coordinate, calling
`toggle(x, y)` twice in succession returns cell `(x, y)` to its original
Filled/Empty occupancy state. -/
theorem toggle_twice_restores_occupancy (g : TileGrid) (x y : Nat)
    (hx : x < gridWidth) (hy : y < gridHeight) :
    ((toggle (toggle g x y) x y) x y).isFilled = (g x y).isFilled := by
  have h : x < gridWidth ∧ y < gridHeight := ⟨hx, hy⟩
  rcases hg : g x y with _ | m <;> simp [toggle, h, hg, Tile.isFilled]

/-- Witness for C2 at the empty grid and cell (3, 3). -/
theorem toggle_twice_restores_occupancy_witness :
    (3 < gridWidth ∧ 3 < gridHeight) ∧
    ((toggle (toggle emptyGrid 3 3) 3 3) 3 3).isFilled = (emptyGrid 3 3).isFilled :=
  ⟨⟨by decide, by decide⟩, toggle_twice_restores_occupancy emptyGrid 3 3 (by decide) (by decide)⟩

/-- C4: for every grid state, calling `toggle(x, y)` with `x` or `y` outside
the fixed grid bounds is a silent no-op that leaves every cell unchanged. -/
theorem toggle_out_of_bounds_noop (g : TileGrid) (x y : Nat)
    (h : ¬(x < gridWidth ∧ y < gridHeight)) : toggle g x y = g := by
  unfold toggle
  rw [if_neg h]

/-- Witness for C4 at the empty grid and the out-of-bounds cell (20, 3). -/
theorem toggle_out_of_bounds_noop_witness :
    ¬(20 < gridWidth ∧ 3 < gridHeight) ∧ toggle emptyGrid 20 3 = emptyGrid :=
  ⟨by decide, toggle_out_of_bounds_noop emptyGrid 20 3 (by decide)⟩

/-- C5: `tile(x, y)` returns the current tile of every in-bounds cell, and
is a fatal error (modelled as `none`) out of bounds. -/
theorem tile_in_bounds_total_out_of_bounds_fatal (g : TileGrid) (x y : Nat) :
    (∀ hx : x < gridWidth, ∀ hy : y < gridHeight, tile g x y = some (g x y)) ∧
    (¬(x < gridWidth ∧ y < gridHeight) → tile g x y = none) := by
  constructor
  · intro hx hy
    unfold tile
    rw [if_pos ⟨hx, hy⟩]
  · intro h
    unfold tile
    rw [if_neg h]

/-- Witness for C5 at the empty grid, cells (3, 3) and (20, 3). -/
theorem tile_in_bounds_total_out_of_bounds_fatal_witness :
    tile emptyGrid 3 3 = some Tile.Empty ∧ tile emptyGrid 20 3 = none :=
  ⟨(tile_in_bounds_total_out_of_bounds_fatal emptyGrid 3 3).1 (by decide) (by decide),
   (tile_in_bounds_total_out_of_bounds_fatal emptyGrid 20 3).2 (by decide)⟩

/-- C6: for every path, dimensions and file state, `new_or_load` never fails
the caller — on a missing or unparsable file it returns the empty store
bound to the given path and dimensions. -/
theorem new_or_load_absorbs_failure (path : String) (tw th : Nat) (fs : FileState)
    (h : fs = FileState.missing ∨ fs = FileState.corrupt) :
    TilemapSpriteConfig.new_or_load path tw th fs = ⟨path, tw, th, []⟩ := by
  rcases h with h | h <;> subst h <;> rfl

/-- Witness for C6 at the reference path and dimensions with a missing
file. -/
theorem new_or_load_absorbs_failure_witness :
    (FileState.missing = FileState.missing ∨ FileState.missing = FileState.corrupt) ∧
    TilemapSpriteConfig.new_or_load "assets/tileset.png.tileset.json" 16 8 FileState.missing =
      ⟨"assets/tileset.png.tileset.json", 16, 8, []⟩ :=
  ⟨Or.inl rfl,
   new_or_load_absorbs_failure "assets/tileset.png.tileset.json" 16 8 FileState.missing
     (Or.inl rfl)⟩

/-- C7: persisting a store and loading from the same path yields a store
with identical contents — mask-to-candidate mapping, candidate order, tile
pixel dimensions and bound path. -/
theorem persist_load_roundtrip (c : TilemapSpriteConfig) (tw th : Nat) :
    TilemapSpriteConfig.new_or_load c.path tw th (FileState.valid c.persistFile) = c := rfl

/-- C8: `lookup(mask)` is absent exactly when the mask has zero configured
candidates, and otherwise returns the candidate at index 0 of the mask's
ordered candidate list. -/
theorem lookup_none_iff_no_candidates_else_first (c : TilemapSpriteConfig) (mask : Nat) :
    (c.lookup mask = none ↔ c.candidates mask = []) ∧
    c.lookup mask = (c.candidates mask)[0]? := by
  constructor
  · exact List.head?_eq_none_iff
  · rcases hl : c.candidates mask with _ | ⟨a, t⟩ <;> simp [TilemapSpriteConfig.lookup, hl]

/-- C9: when a persist attempt fails on the file system, the error is
reported to the caller and the in-memory store is exactly what it was before
the attempt, so lookups keep serving the same state. -/
theorem persist_failure_preserves_store (c : TilemapSpriteConfig) (disk : FileState)
    (fsOk : Bool) (h : fsOk = false) :
    (c.persist disk fsOk).1 = Except.error "io error" ∧
    (c.persist disk fsOk).2.1 = c ∧
    ∀ mask, ((c.persist disk fsOk).2.1).lookup mask = c.lookup mask := by
  subst h
  exact ⟨rfl, rfl, fun _ => rfl⟩

/-- Witness for C9 at the sample store with no sidecar file present. -/
theorem persist_failure_preserves_store_witness :
    ((sampleConfig.persist FileState.missing false).1 = Except.error "io error") ∧
    ((sampleConfig.persist FileState.missing false).2.1 = sampleConfig) ∧
    ((sampleConfig.persist FileState.missing false).2.1).lookup 5 = sampleConfig.lookup 5 :=
  ⟨(persist_failure_preserves_store sampleConfig FileState.missing false rfl).1,
   (persist_failure_preserves_store sampleConfig FileState.missing false rfl).2.1,
   (persist_failure_preserves_store sampleConfig FileState.missing false rfl).2.2 5⟩

/-- C10: whenever the right-mouse-click handler of `main.rs` issues a
`toggle(grid_x, grid_y)` call, the arguments are in bounds for the 16×16
grid, so the out-of-bounds no-op branch of `toggle` is unreachable from this
path. -/
theorem right_click_toggle_in_bounds (posx posy : ℚ) (gx gy : Nat)
    (h : rightClickToggleArgs posx posy = some (gx, gy)) :
    gx < gridWidth ∧ gy < gridHeight := by
  simp only [rightClickToggleArgs] at h
  split at h
  · split at h
    · rename_i hg
      injection h with h
      rw [Prod.mk.injEq] at h
      obtain ⟨h1, h2⟩ := h
      subst h1
      subst h2
      exact hg
    · simp at h
  · simp at h

/-- Witness for C10 at a click resolving to grid cell (3, 5). -/
theorem right_click_toggle_in_bounds_witness :
    rightClickToggleArgs (mkRat 7 2) 5 = some (3, 5) ∧ 3 < gridWidth ∧ 5 < gridHeight :=
  ⟨by decide, right_click_toggle_in_bounds (mkRat 7 2) 5 3 5 (by decide)⟩

/-- Helper: setting a bit on a conditional branch, rewritten as an
unconditional bitwise or. -/
theorem if_or_zero (b : Bool) (m t : Nat) :
    (if b = true then m ||| t else m) = m ||| (if b = true then t else 0) := by
  cases b <;> simp

/-- Helper: the test of a single conditional bit. -/
theorem testBit_if_shift (b : Bool) (i k : Nat) :
    (if b = true then 1 <<< i else 0).testBit k = (b && decide (i = k)) := by
  cases b
  · simp [Nat.zero_testBit]
  · simp [Nat.one_shiftLeft, Nat.testBit_two_pow]

/-- Helper: a conditional single bit below bit 8 is below `2 ^ 8`. -/
theorem if_shift_lt (b : Bool) (i : Nat) (h : i < 8) :
    (if b = true then 1 <<< i else 0) < 2 ^ 8 := by
  cases b
  · simp
  · rw [if_pos rfl, Nat.one_shiftLeft]
    exact Nat.pow_lt_pow_right (by decide) h

/-- Helper: the resolver's mask has a direction's bit set exactly when that
neighbor exists in bounds and is filled. -/
theorem computeMask_testBit (g : TileGrid) (x y : Nat) (d : Dir) :
    (computeMask g x y).testBit d.bit = neighborFilled g x y d := by
  simp only [computeMask, Dir.all, List.foldl_cons, List.foldl_nil, if_or_zero]
  cases d <;>
    simp only [Dir.bit] <;>
    simp only [Nat.testBit_or, testBit_if_shift, Nat.zero_testBit] <;>
    simp

/-- Helper: the resolver's mask uses only the 8 direction bits. -/
theorem computeMask_lt (g : TileGrid) (x y : Nat) : computeMask g x y < 2 ^ 8 := by
  simp only [computeMask, Dir.all, List.foldl_cons, List.foldl_nil, if_or_zero]
  exact Nat.or_lt_two_pow
    (Nat.or_lt_two_pow
      (Nat.or_lt_two_pow
        (Nat.or_lt_two_pow
          (Nat.or_lt_two_pow
            (Nat.or_lt_two_pow
              (Nat.or_lt_two_pow
                (Nat.or_lt_two_pow (by decide) (if_shift_lt _ _ (by decide)))
                (if_shift_lt _ _ (by decide)))
              (if_shift_lt _ _ (by decide)))
            (if_shift_lt _ _ (by decide)))
          (if_shift_lt _ _ (by decide)))
        (if_shift_lt _ _ (by decide)))
      (if_shift_lt _ _ (by decide)))
    (if_shift_lt _ _ (by decide))

/-- C3: the rebuild gives every in-bounds filled cell the mask whose
direction bits are set exactly for the neighbor offsets that lie inside
grid bounds and hold a `Filled` tile; no other bit of the mask is ever set,
so out-of-bounds directions of edge and corner cells contribute nothing. -/
theorem rebuild_mask_bits_exact (g : TileGrid) (x y : Nat)
    (hx : x < gridWidth) (hy : y < gridHeight) (m : Nat) (hf : g x y = Tile.Filled m) :
    rebuildMasks g x y = Tile.Filled (computeMask g x y) ∧
    (∀ d : Dir, (computeMask g x y).testBit d.bit =
      (neighborInBounds x y d &&
        (g ((x : Int) + d.dx).toNat ((y : Int) + d.dy).toNat).isFilled)) ∧
    computeMask g x y < 2 ^ 8 := by
  refine ⟨?_, fun d => computeMask_testBit g x y d, computeMask_lt g x y⟩
  simp only [rebuildMasks]
  rw [if_pos ⟨hx, hy⟩, hf]

/-- Witness for C3 at a grid with filled cells (0, 0) and (1, 0), observed
at the corner cell (0, 0) and its east neighbor. -/
theorem rebuild_mask_bits_exact_witness :
    (0 < gridWidth ∧ 0 < gridHeight ∧ pairGrid 0 0 = Tile.Filled 0) ∧
    rebuildMasks pairGrid 0 0 = Tile.Filled (computeMask pairGrid 0 0) ∧
    (computeMask pairGrid 0 0).testBit Dir.E.bit =
      (neighborInBounds 0 0 Dir.E &&
        (pairGrid ((0 : Int) + Dir.E.dx).toNat ((0 : Int) + Dir.E.dy).toNat).isFilled) ∧
    computeMask pairGrid 0 0 < 2 ^ 8 :=
  ⟨⟨by decide, by decide, by decide⟩,
   (rebuild_mask_bits_exact pairGrid 0 0 (by decide) (by decide) 0 (by decide)).1,
   (rebuild_mask_bits_exact pairGrid 0 0 (by decide) (by decide) 0 (by decide)).2.1 Dir.E,
   (rebuild_mask_bits_exact pairGrid 0 0 (by decide) (by decide) 0 (by decide)).2.2⟩

/-- C1: after a rebuild pass, `instance_count()` equals the number of filled
cells whose mask has at least one configured candidate in the store, and
every entry of the instance buffer comes from a filled cell whose mask has a
configured candidate — filled cells without one are omitted, not drawn with
a fallback. -/
theorem instance_count_matches_configured_filled (g : TileGrid) (c : TilemapSpriteConfig) :
    instance_count g c = specConfiguredFilledCount g c ∧
    (rebuildInstances g c).all
      (fun inst => (g inst.offset_x inst.offset_y).isFilled &&
        (c.lookup (computeMask g inst.offset_x inst.offset_y)).isSome) = true := by
  constructor
  · unfold instance_count specConfiguredFilledCount rebuildInstances
    exact length_flatMap_congr _ _ _
      (fun y => length_filterMap_eq_length_filter _ _ (fun x => resolveCell_isSome g c y x) _)
  · rw [List.all_eq_true]
    intro inst hmem
    unfold rebuildInstances at hmem
    rw [List.mem_flatMap] at hmem
    obtain ⟨y, _, hmem⟩ := hmem
    rw [List.mem_filterMap] at hmem
    obtain ⟨x, _, hx⟩ := hmem
    obtain ⟨hox, hoy, hf, hs⟩ := resolveCell_eq_some g c y x inst hx
    rw [hox, hoy, hf, hs]
    rfl
